import Mathlib

/-!
Shallow embedding of the classact Spotify sync and tagging script
(src/main.py) together with theorems settling the frozen claims about it.

The remote service is modelled as an oracle (`Remote`), the local file
cache as an explicit state (`CacheState`), console interaction as data
(answers to confirm prompts, a list of input lines), and each command as
a function from these to a trace of emitted events plus a final state.
Pagination loops, which in Python are unbounded while-loops, take a fuel
argument; exhausting fuel yields `none` / an error, which never happens
on the concrete inputs used below.
-/

set_option maxRecDepth 40000

namespace ClassAct

/-- A reference to an artist inside a track payload (only the id is read
by the script). -/
structure SpArtistRef where
  id : String
  deriving DecidableEq, Repr

/-- The track object inside a playlist item: `track['id']`, `track['name']`,
`track['artists']`. -/
structure SpTrack where
  id : String
  name : String
  artists : List SpArtistRef
  deriving DecidableEq, Repr

/-- A playlist item as returned by the tracks endpoint; the `track` field
may be null (deleted or unavailable track). -/
structure SpPlaylistItem where
  track : Option SpTrack
  deriving DecidableEq, Repr

/-- A playlist object from the listing endpoint: id, name and owner id. -/
structure SpPlaylist where
  id : String
  name : String
  ownerId : String
  deriving DecidableEq, Repr

/-- A full artist record from the bulk artists endpoint. -/
structure SpArtist where
  id : String
  name : String
  deriving DecidableEq, Repr

/-- An audio-features record from the bulk features endpoint. -/
structure SpFeature where
  id : String
  payload : String
  deriving DecidableEq, Repr

/-- The remote API surface consumed by the script, as a deterministic
oracle. Paginated endpoints take limit and offset. -/
structure Remote where
  currentUserId : String
  currentUserPlaylists : Nat → Nat → List SpPlaylist
  playlistTracks : String → Nat → Nat → List SpPlaylistItem
  artists : List String → List SpArtist
  audioFeatures : List String → List (Option SpFeature)

/-- One remote API call, as recorded in a trace. -/
inductive ApiCall where
  | currentUser
  | currentUserPlaylists (limit offset : Nat)
  | playlistTracks (playlistId : String) (limit offset : Nat)
  | artists (ids : List String)
  | audioFeatures (ids : List String)
  | devices
  | startPlayback (deviceId uri : String)
  | pausePlayback (deviceId : String)
  | playlistAddItems (playlistId : String) (trackIds : List String)
  deriving DecidableEq, Repr

/-- A traced event: a remote API call, or a per-playlist yes/no
confirmation prompt together with the answer given. -/
inductive Event where
  | api (c : ApiCall)
  | confirm (playlistName : String) (answer : Bool)
  deriving DecidableEq, Repr

/-- The local cache: playlist files keyed by playlist id, the aggregate
artist file (absent before first write), feature files keyed by track id,
and the set of directories that exist. -/
structure CacheState where
  playlistFiles : List (String × List SpPlaylistItem)
  artistFile : Option (List SpArtist)
  featureFiles : List (String × SpFeature)
  dirs : List String
  deriving DecidableEq, Repr

deriving instance DecidableEq for Except

/-- First-match association-list lookup (reading a file by name). -/
def lookupAssoc {α : Type} : List (String × α) → String → Option α
  | [], _ => none
  | (k, v) :: rest, key => if k = key then some v else lookupAssoc rest key

/-- Write a file: replace the entry for the key, or append it. -/
def setAssoc {α : Type} : List (String × α) → String → α → List (String × α)
  | [], key, v => [(key, v)]
  | (k, w) :: rest, key, v =>
      if k = key then (k, v) :: rest else (k, w) :: setAssoc rest key v

/-- Insertion into a Python set, materialised as a duplicate-free list in
insertion order. -/
def insertSet (acc : List String) (x : String) : List String :=
  if x ∈ acc then acc else acc ++ [x]

/--
The pagination loop shared by `fetch_user_playlists`,
`fetch_and_save_playlist_tracks` and the inline loop of `refresh`:
call the endpoint, extend the accumulator, advance the offset by the
number of items received, and break exactly when a page has zero items.
Returns the list of offsets at which calls were issued and the
concatenated items, or `none` when fuel runs out.
-/
def paginate {α : Type} (page : Nat → Nat → List α) (limit : Nat) :
    Nat → Nat → Option (List Nat × List α)
  | 0, _ => none
  | fuel + 1, offset =>
      let items := page limit offset
      if items.length = 0 then some ([offset], items)
      else
        match paginate page limit fuel (offset + items.length) with
        | none => none
        | some (offs, rest) => some (offset :: offs, items ++ rest)

/-- Batching helper: `chunksAux k fuel xs` splits `xs` into consecutive
slices of length `k` (`fuel` bounds the recursion; `xs.length` is always
enough when `k` is positive). -/
def chunksAux {α : Type} (k : Nat) : Nat → List α → List (List α)
  | 0, _ => []
  | _, [] => []
  | fuel + 1, x :: rest => ((x :: rest).take k) :: chunksAux k fuel ((x :: rest).drop k)

/-- `range(0, len(xs), k)` slicing, as done by the bulk artist and
audio-feature fetches. -/
def chunks {α : Type} (k : Nat) (xs : List α) : List (List α) :=
  if k = 0 then [] else chunksAux k xs.length xs

/-- `fetch_user_playlists`: look up the current user, paginate the
playlist listing with page size 50, and keep only playlists owned by the
current user. -/
def fetch_user_playlists (sp : Remote) (fuel : Nat) :
    Option (List Event × List SpPlaylist) :=
  match paginate sp.currentUserPlaylists 50 fuel 0 with
  | none => none
  | some (offs, items) =>
      some (Event.api ApiCall.currentUser ::
              offs.map (fun o => Event.api (ApiCall.currentUserPlaylists 50 o)),
            items.filter (fun p => p.ownerId == sp.currentUserId))

/-- The artist-id collection loop shared by `fetch_and_save_playlist_tracks`
and `refresh`: walk the track items, skip null tracks and tracks with an
empty artist list, and add every artist id not already known to the
accumulating set. -/
def collectArtistsAcc (existing : List String) (tracks : List SpPlaylistItem)
    (acc : List String) : List String :=
  tracks.foldl
    (fun a item =>
      match item.track with
      | none => a
      | some t =>
          if t.artists.isEmpty then a
          else t.artists.foldl
            (fun a2 ar => if ar.id ∈ existing then a2 else insertSet a2 ar.id) a)
    acc

/-- The song-id collection loop of `pull` and `refresh`: every non-null
track contributes its id to the accumulating set. -/
def collectSongsAcc (tracks : List SpPlaylistItem) (acc : List String) : List String :=
  tracks.foldl
    (fun a item =>
      match item.track with
      | none => a
      | some t => insertSet a t.id)
    acc

/-- `fetch_and_save_playlist_tracks`: ask for confirmation (the answer is
injected); on no, skip entirely; on yes, paginate the tracks endpoint with
page size 100, save the track list to the playlist file, and return the
new artist ids found. -/
def fetch_and_save_playlist_tracks (sp : Remote) (fuel : Nat)
    (playlist : SpPlaylist) (existingArtistIds : List String) (answer : Bool)
    (st : CacheState) :
    Option (List Event × CacheState × List String) :=
  if answer then
    match paginate (sp.playlistTracks playlist.id) 100 fuel 0 with
    | none => none
    | some (offs, tracks) =>
        let st2 : CacheState :=
          { st with
              dirs := insertSet st.dirs "spotify/playlists",
              playlistFiles := setAssoc st.playlistFiles playlist.id tracks }
        some (Event.confirm playlist.name true ::
                offs.map (fun o => Event.api (ApiCall.playlistTracks playlist.id 100 o)),
              st2,
              collectArtistsAcc existingArtistIds tracks [])
  else
    some ([Event.confirm playlist.name false], st, [])

/-- `fetch_and_save_artist_data`: load the aggregate artist file (empty if
absent), subtract the already-present ids, fetch the remaining ids in
batches of at most 50, append the results and save the file. -/
def fetch_and_save_artist_data (sp : Remote) (uniqueArtists : List String)
    (st : CacheState) : List Event × CacheState :=
  let artistData := st.artistFile.getD []
  let existingIds := artistData.map (fun a => a.id)
  let newArtistIds := uniqueArtists.filter (fun (i : String) => decide (i ∉ existingIds))
  let batches := chunks 50 newArtistIds
  let newArtistData := (batches.map (fun b => sp.artists b)).flatten
  (batches.map (fun b => Event.api (ApiCall.artists b)),
   { st with
       dirs := insertSet st.dirs "spotify/artists",
       artistFile := some (artistData ++ newArtistData) })

/-- The save loop of `fetch_song_features`: each non-null feature record
is written to its own file keyed by its id. -/
def saveFeatures (feats : List (Option SpFeature)) (st : CacheState) : CacheState :=
  feats.foldl
    (fun s f =>
      match f with
      | none => s
      | some feat => { s with featureFiles := setAssoc s.featureFiles feat.id feat })
    st

/-- `fetch_song_features`: create the features directory, fetch the song
ids in batches of at most 100, and save each non-null result. -/
def fetch_song_features (sp : Remote) (songIds : List String) (st : CacheState) :
    List Event × CacheState :=
  let batches := chunks 100 songIds
  let feats := (batches.map (fun b => sp.audioFeatures b)).flatten
  (batches.map (fun b => Event.api (ApiCall.audioFeatures b)),
   saveFeatures feats { st with dirs := insertSet st.dirs "spotify/features" })

/-- The per-playlist body of `pull`: run `fetch_and_save_playlist_tracks`
for each playlist (consulting the injected answers), union the returned
new artist ids, then unconditionally reload the playlist file from the
cache (raising FileNotFoundError when it is absent, exactly as
`load_json` does) and add every non-null track id to the song-id set. -/
def pullLoop (sp : Remote) (fuel : Nat) (answers : String → Bool)
    (existingArtistIds : List String) :
    List SpPlaylist → CacheState → List String → List String →
    Except String (List Event × CacheState × List String × List String)
  | [], st, allU, allS => .ok ([], st, allU, allS)
  | p :: rest, st, allU, allS =>
      match fetch_and_save_playlist_tracks sp fuel p existingArtistIds (answers p.id) st with
      | none => .error "pagination fuel exhausted"
      | some (evs, st2, uniq) =>
          let allU2 := uniq.foldl insertSet allU
          match lookupAssoc st2.playlistFiles p.id with
          | none => .error ("FileNotFoundError: spotify/playlists/" ++ p.id ++ ".json")
          | some tracks =>
              let allS2 := collectSongsAcc tracks allS
              match pullLoop sp fuel answers existingArtistIds rest st2 allU2 allS2 with
              | .error e => .error e
              | .ok (evs2, st3, u, s) => .ok (evs ++ evs2, st3, u, s)

/-- `pull`: fetch the owned playlists, process each one (confirmation,
track fetch, artist-id and song-id accumulation), then bulk-fetch and
merge artist data and bulk-fetch audio features for every song id seen. -/
def pull (sp : Remote) (fuel : Nat) (answers : String → Bool) (st : CacheState) :
    Except String (List Event × CacheState) :=
  match fetch_user_playlists sp fuel with
  | none => .error "pagination fuel exhausted"
  | some (evs0, userPlaylists) =>
      let existingArtistIds := (st.artistFile.getD []).map (fun a => a.id)
      match pullLoop sp fuel answers existingArtistIds userPlaylists st [] [] with
      | .error e => .error e
      | .ok (evs1, st1, allU, allS) =>
          let r2 := fetch_and_save_artist_data sp allU st1
          let r3 := fetch_song_features sp allS r2.2
          .ok (evs0 ++ evs1 ++ r2.1 ++ r3.1, r3.2)

/-- The per-playlist body of `refresh`: re-fetch the tracks of one cached
playlist id (no confirmation), overwrite the playlist file, and
accumulate artist and song ids exactly as `pull` does. -/
def refreshLoop (sp : Remote) (fuel : Nat) (existingArtistIds : List String) :
    List String → CacheState → List String → List String →
    Option (List Event × CacheState × List String × List String)
  | [], st, allU, allS => some ([], st, allU, allS)
  | pid :: rest, st, allU, allS =>
      match paginate (sp.playlistTracks pid) 100 fuel 0 with
      | none => none
      | some (offs, tracks) =>
          let st2 : CacheState :=
            { st with playlistFiles := setAssoc st.playlistFiles pid tracks }
          let allU2 := collectArtistsAcc existingArtistIds tracks allU
          let allS2 := collectSongsAcc tracks allS
          match refreshLoop sp fuel existingArtistIds rest st2 allU2 allS2 with
          | none => none
          | some (evs2, st3, u, s) =>
              some (offs.map (fun o => Event.api (ApiCall.playlistTracks pid 100 o)) ++ evs2,
                    st3, u, s)

/-- `refresh`: enumerate the playlist ids from the files of the local
playlist cache directory (none when the directory does not exist),
re-fetch and overwrite each, then run the same artist-merge and
audio-feature steps as `pull`. -/
def refresh (sp : Remote) (fuel : Nat) (st : CacheState) :
    Option (List Event × CacheState) :=
  let existingArtistIds := (st.artistFile.getD []).map (fun a => a.id)
  let pids := if "spotify/playlists" ∈ st.dirs then st.playlistFiles.map Prod.fst else []
  match refreshLoop sp fuel existingArtistIds pids st [] [] with
  | none => none
  | some (evs1, st1, allU, allS) =>
      let r2 := fetch_and_save_artist_data sp allU st1
      let r3 := fetch_song_features sp allS r2.2
      some (evs1 ++ r2.1 ++ r3.1, r3.2)

/-- Lowercase a string character by character, as `str.lower` does for
the ASCII inputs the script compares against. -/
def lowerStr (s : String) : String := String.mk (s.data.map Char.toLower)

/-- Whitespace recognised by `str.strip`. -/
def isSpaceChar (c : Char) : Bool := c = ' ' ∨ c = '\t' ∨ c = '\n' ∨ c = '\r'

/-- `str.strip`: drop leading and trailing whitespace. -/
def stripStr (s : String) : String :=
  String.mk ((((s.data.dropWhile isSpaceChar).reverse).dropWhile isSpaceChar).reverse)

/-- `input.strip().lower()` as applied to each line read by the tagging
loop. -/
def normalizeInput (s : String) : String := lowerStr (stripStr s)

/-- `str.isdigit` restricted to ASCII digits: nonempty and all digits. -/
def isDigitStr (s : String) : Bool := !s.data.isEmpty && s.data.all Char.isDigit

/-- `int(s)` for the digit strings accepted by the tagging loop. -/
def strToNat (s : String) : Nat := s.data.foldl (fun n c => n * 10 + (c.toNat - 48)) 0

/-- `load_local_playlists`: read every cached playlist file of the
playlist directory (empty when the directory does not exist). Each file
holds the raw ordered track-item list that `pull` and `refresh` wrote,
so each menu entry is a `List SpPlaylistItem`, not a playlist object. -/
def load_local_playlists (st : CacheState) : List (List SpPlaylistItem) :=
  if "spotify/playlists" ∈ st.dirs then st.playlistFiles.map Prod.snd else []

/-- Python subscripting `v[key]` where `v` is a JSON-array value and
`key` a string, as `tag` applies to each cached playlist file
(`playlist[...]` with a field name at the menu print and at the
add-items lookup): it unconditionally raises TypeError. -/
def pyListGetStr {α β : Type} (_v : List α) (_key : String) : Except String β :=
  .error "TypeError: list indices must be integers or slices, not str"

/-- The menu-rendering loop of `tag`: look up the name field of every
menu entry in order; the first access raises, since the entries are raw
track-item lists. -/
def menuLabels : List (List SpPlaylistItem) → Except String (List String)
  | [] => .ok []
  | p :: rest =>
      match (pyListGetStr p "name" : Except String String) with
      | .error e => .error e
      | .ok nm =>
          match menuLabels rest with
          | .error e => .error e
          | .ok nms => .ok (nm :: nms)

/--
The body of the `while True` loop of `tag`: pick a random liked song
(the random choice is injected as `picks`, reduced modulo the number of
liked songs), start playback of it, render the playlist menu, read one
line of input, and act on it: quit stops playback and exits; skip stops
playback and continues; a valid 1-based playlist index looks up the id
field of the chosen menu entry, adds the song, stops playback and
continues; anything else reports invalid input, stops playback and
continues. The result is the trace of events issued so far together with
the outcome; errors mirror the uncaught Python exceptions (null liked
track, empty artist list, the TypeError of string-indexing a cached
track list, end of input, fuel). -/
def tagLoop (device : String) (playlists : List (List SpPlaylistItem))
    (likedSongs : List SpPlaylistItem) (picks : Nat → Nat) :
    Nat → Nat → List String → List Event × Except String Unit
  | 0, _, _ => ([], .error "fuel exhausted")
  | fuel + 1, k, inputs =>
      match likedSongs[picks k % likedSongs.length]? with
      | none => ([], .error "IndexError: empty liked songs")
      | some item =>
          match item.track with
          | none => ([], .error "TypeError: NoneType is not subscriptable")
          | some t =>
              if t.artists.isEmpty then ([], .error "IndexError: list index out of range")
              else
                let playEv := Event.api (ApiCall.startPlayback device ("spotify:track:" ++ t.id))
                match menuLabels playlists with
                | .error e => ([playEv], .error e)
                | .ok _ =>
                    match inputs with
                    | [] => ([playEv], .error "EOFError")
                    | input :: rest =>
                        let u := normalizeInput input
                        if u = "q" then
                          ([playEv, Event.api (ApiCall.pausePlayback device)], .ok ())
                        else if u = "s" then
                          let r := tagLoop device playlists likedSongs picks fuel (k + 1) rest
                          (playEv :: Event.api (ApiCall.pausePlayback device) :: r.1, r.2)
                        else if isDigitStr u = true ∧ 1 ≤ strToNat u ∧
                            strToNat u ≤ playlists.length then
                          match (pyListGetStr (playlists.getD (strToNat u - 1) []) "id" :
                              Except String String) with
                          | .error e => ([playEv], .error e)
                          | .ok pid =>
                              let r := tagLoop device playlists likedSongs picks fuel (k + 1) rest
                              (playEv :: Event.api (ApiCall.playlistAddItems pid [t.id]) ::
                                 Event.api (ApiCall.pausePlayback device) :: r.1, r.2)
                        else
                          let r := tagLoop device playlists likedSongs picks fuel (k + 1) rest
                          (playEv :: Event.api (ApiCall.pausePlayback device) :: r.1, r.2)

/-- `tag`: check for an available device, load the liked songs (the
producer of that file is out of scope, so its contents are a parameter)
and the cached playlists, bail out if either is empty, then run the
tagging loop on the first device. -/
def tag (deviceIds : List String) (st : CacheState)
    (likedSongs : List SpPlaylistItem) (picks : Nat → Nat)
    (fuel : Nat) (inputs : List String) : List Event × Except String Unit :=
  match deviceIds with
  | [] => ([Event.api ApiCall.devices], .ok ())
  | d :: _ =>
      let userPlaylists := load_local_playlists st
      if likedSongs.isEmpty then ([Event.api ApiCall.devices], .ok ())
      else if userPlaylists.isEmpty then ([Event.api ApiCall.devices], .ok ())
      else
        let r := tagLoop d userPlaylists likedSongs picks fuel 0 inputs
        (Event.api ApiCall.devices :: r.1, r.2)

/-- Does the event start playback? -/
def isStartEv : Event → Bool
  | .api (.startPlayback _ _) => true
  | _ => false

/-- Does the event pause playback? -/
def isPauseEv : Event → Bool
  | .api (.pausePlayback _) => true
  | _ => false

/-- Is the event a playlist-mutation call? -/
def isAddEv : Event → Bool
  | .api (.playlistAddItems _ _) => true
  | _ => false

/-- Is the event a call to the paginated playlist-listing endpoint? -/
def isListingCallEv : Event → Bool
  | .api (.currentUserPlaylists _ _) => true
  | _ => false

/-- Is the event a call to the paginated playlist-tracks endpoint? -/
def isTracksCallEv : Event → Bool
  | .api (.playlistTracks _ _ _) => true
  | _ => false

/-- Is the event a confirmation prompt? -/
def isConfirmEv : Event → Bool
  | .confirm _ _ => true
  | _ => false

/-- The only events `refresh` may emit: track fetches for cached playlist
ids, bulk artist fetches and bulk feature fetches. In particular neither
a listing call nor a confirmation prompt qualifies. -/
def refreshEventOK (keys : List String) : Event → Prop
  | .api (.playlistTracks pid _ _) => pid ∈ keys
  | .api (.artists _) => True
  | .api (.audioFeatures _) => True
  | _ => False

/-- Sizes of the bulk artist calls of a trace, in order. -/
def artistCallSizes (tr : List Event) : List Nat :=
  tr.filterMap (fun e =>
    match e with
    | .api (.artists ids) => some ids.length
    | _ => none)

/-- Sizes of the bulk audio-feature calls of a trace, in order. -/
def featureCallSizes (tr : List Event) : List Nat :=
  tr.filterMap (fun e =>
    match e with
    | .api (.audioFeatures ids) => some ids.length
    | _ => none)

/-- A playlist owned by the current user, used by the concrete pagination
scenario. -/
def plDummy : SpPlaylist := { id := "p", name := "list", ownerId := "me" }

/-- A simulated listing endpoint holding 130 items, so that pages of size
50 come back with sizes 50, 50, 30, 0. -/
def pages130 : Nat → Nat → List SpPlaylist :=
  fun limit offset => ((List.replicate 130 plDummy).drop offset).take limit

/-- Remote for the pagination scenario. -/
def spC1 : Remote :=
  { currentUserId := "me", currentUserPlaylists := pages130,
    playlistTracks := fun _ _ _ => [], artists := fun _ => [],
    audioFeatures := fun _ => [] }

/-- A faithful simple remote: empty listings, bulk endpoints answering
each requested id with a record carrying that id. -/
def spBulk : Remote :=
  { currentUserId := "me", currentUserPlaylists := fun _ _ => [],
    playlistTracks := fun _ _ _ => [],
    artists := fun ids => ids.map (fun i => { id := i, name := "n" }),
    audioFeatures := fun ids => ids.map (fun i => some { id := i, payload := "f" }) }

/-- The empty local cache. -/
def emptyCache : CacheState :=
  { playlistFiles := [], artistFile := none, featureFiles := [], dirs := [] }

/-- 120 distinct artist ids. -/
def ids120 : List String := (List.range 120).map (fun n => toString n)

/-- 250 distinct track ids. -/
def ids250 : List String := (List.range 250).map (fun n => toString n)

/-- The playlist of the skipped-playlist scenario. -/
def plC2 : SpPlaylist := { id := "P", name := "MyList", ownerId := "me" }

/-- Remote for the skipped-playlist scenario: the listing returns one
owned playlist and the bulk endpoints echo ids. -/
def spC2 : Remote :=
  { currentUserId := "me",
    currentUserPlaylists := fun _ offset => if offset = 0 then [plC2] else [],
    playlistTracks := fun _ _ _ => [],
    artists := fun ids => ids.map (fun i => { id := i, name := "n" }),
    audioFeatures := fun ids => ids.map (fun i => some { id := i, payload := "f" }) }

/-- A cached playlist item whose track has id s1. -/
def itemS1 : SpPlaylistItem :=
  { track := some { id := "s1", name := "Song", artists := [{ id := "a1" }] } }

/-- Cache holding a stale track list for playlist P from a previous run. -/
def stC2 : CacheState :=
  { playlistFiles := [("P", [itemS1])], artistFile := none,
    featureFiles := [], dirs := ["spotify/playlists"] }

/-- Confirmation answers that decline every playlist. -/
def noAnswers : String → Bool := fun _ => false

/-- The freshly fetched playlist item of the refresh scenario. -/
def itemT1 : SpPlaylistItem :=
  { track := some { id := "t1", name := "N", artists := [{ id := "ar1" }] } }

/-- The stale cached playlist item of the refresh scenario. -/
def itemOld : SpPlaylistItem :=
  { track := some { id := "t0", name := "Old", artists := [{ id := "ar0" }] } }

/-- Remote for the refresh scenario: playlist p1 now contains itemT1. -/
def spC6 : Remote :=
  { currentUserId := "me",
    currentUserPlaylists := fun _ _ => [],
    playlistTracks := fun pid _ offset => if pid = "p1" ∧ offset = 0 then [itemT1] else [],
    artists := fun ids => ids.map (fun i => { id := i, name := "n" }),
    audioFeatures := fun ids => ids.map (fun i => some { id := i, payload := "f" }) }

/-- Cache of the refresh scenario: one cached playlist with a stale list. -/
def stC6 : CacheState :=
  { playlistFiles := [("p1", [itemOld])], artistFile := none,
    featureFiles := [], dirs := ["spotify/playlists"] }

/-- Track of the first liked song of the tagging scenarios. -/
def trackA : SpTrack := { id := "tA", name := "A", artists := [{ id := "arA" }] }

/-- Track of the second liked song of the tagging scenarios. -/
def trackB : SpTrack := { id := "tB", name := "B", artists := [{ id := "arB" }] }

/-- Two liked songs for the tagging scenarios. -/
def songA : SpPlaylistItem := { track := some trackA }

/-- Second liked song. -/
def songB : SpPlaylistItem := { track := some trackB }

/-- The liked-songs snapshot of the tagging scenarios. -/
def likedTag : List SpPlaylistItem := [songA, songB]

/-- Injected random choices: iteration k picks index k (mod the number of
liked songs). -/
def picksId : Nat → Nat := fun k => k

theorem chunksAux_flatten {α : Type} (k : Nat) :
    ∀ (fuel : Nat) (xs : List α), xs.length ≤ fuel →
      (chunksAux (k + 1) fuel xs).flatten = xs := by
  intro fuel
  induction fuel with
  | zero =>
      intro xs h
      have hx : xs = [] := List.length_eq_zero.mp (Nat.le_zero.mp h)
      subst hx
      rfl
  | succ n ih =>
      intro xs h
      match xs with
      | [] => rfl
      | x :: rest =>
          have hle : ((x :: rest).drop (k + 1)).length ≤ n := by
            rw [List.length_drop]
            simp only [List.length_cons] at h ⊢
            omega
          simp only [chunksAux, List.flatten_cons, ih _ hle, List.take_append_drop]

theorem chunksAux_length_le {α : Type} (k : Nat) :
    ∀ (fuel : Nat) (xs c : List α), c ∈ chunksAux (k + 1) fuel xs → c.length ≤ k + 1 := by
  intro fuel
  induction fuel with
  | zero =>
      intro xs c h
      simp [chunksAux] at h
  | succ n ih =>
      intro xs c h
      match xs with
      | [] => simp [chunksAux] at h
      | x :: rest =>
          simp only [chunksAux, List.mem_cons] at h
          rcases h with h | h
          · subst h
            rw [List.length_take]
            exact min_le_left _ _
          · exact ih _ _ h

theorem chunks_flatten {α : Type} (k : Nat) (xs : List α) :
    (chunks (k + 1) xs).flatten = xs := by
  unfold chunks
  rw [if_neg (Nat.succ_ne_zero k)]
  exact chunksAux_flatten k xs.length xs (le_refl _)

theorem chunks_length_le {α : Type} (k : Nat) (xs c : List α)
    (h : c ∈ chunks (k + 1) xs) : c.length ≤ k + 1 := by
  unfold chunks at h
  rw [if_neg (Nat.succ_ne_zero k)] at h
  exact chunksAux_length_le k xs.length xs c h

/-- The trace produced by `fetch_user_playlists` on the 130-item listing:
one current-user lookup and four listing calls. -/
def trC1 : List Event :=
  [Event.api ApiCall.currentUser,
   Event.api (ApiCall.currentUserPlaylists 50 0),
   Event.api (ApiCall.currentUserPlaylists 50 50),
   Event.api (ApiCall.currentUserPlaylists 50 100),
   Event.api (ApiCall.currentUserPlaylists 50 130)]

/-- Claim C1 is false on the code: for a simulated listing endpoint with
pages of sizes 50, 50, 30, the fetch loop does not stop after 3 calls;
it issues a 4th listing call at offset 130, because the loop breaks only
when a page comes back with exactly zero items, not when a page is merely
shorter than the requested size. -/
theorem pagination_three_call_counterexample :
    fetch_user_playlists spC1 6 = some (trC1, List.replicate 130 plDummy) ∧
    trC1.countP isListingCallEv = 4 ∧
    Event.api (ApiCall.currentUserPlaylists 50 130) ∈ trC1 ∧
    (List.replicate 130 plDummy).length = 130 := by
  refine ⟨by decide, by decide, by decide, by simp⟩

/-- Claim C1 amended: every paginated fetch loop terminates exactly when
a page returns zero items (a zero page ends the loop after that single
call); for pages of sizes 50, 50, 30 the loop issues 4 calls with offsets
0, 50, 100, 130 (the last returning zero items) and returns the 130
concatenated items. -/
theorem pagination_terminates_on_empty_page :
    (∀ (α : Type) (page : Nat → Nat → List α) (limit fuel offset : Nat),
        page limit offset = [] →
        paginate page limit (fuel + 1) offset = some ([offset], [])) ∧
    fetch_user_playlists spC1 6 = some (trC1, List.replicate 130 plDummy) ∧
    trC1.countP isListingCallEv = 4 ∧
    (List.replicate 130 plDummy).length = 130 := by
  refine ⟨?_, by decide, by decide, by simp⟩
  intro α page limit fuel offset h
  simp [paginate, h]

/-- Witness for the amended claim C1: a first page of size zero ends the
loop after exactly one call with an empty result, and the 130-item
scenario stands as computed. -/
theorem pagination_terminates_on_empty_page_witness :
    paginate (fun _ _ => ([] : List SpPlaylist)) 50 1 0 = some ([0], []) ∧
    fetch_user_playlists spC1 6 = some (trC1, List.replicate 130 plDummy) :=
  ⟨pagination_terminates_on_empty_page.1 SpPlaylist (fun _ _ => []) 50 0 0 rfl,
   pagination_terminates_on_empty_page.2.1⟩

/-- Claim C7: bulk fetches split their id lists into consecutive batches
bounded by the batch size (50 for artists, 100 for features) whose
concatenation is the original list, one call per batch; 120 artist ids
give exactly 3 calls of sizes 50, 50, 20 and 250 track ids give exactly
3 feature calls of sizes 100, 100, 50. -/
theorem bulk_batch_partition :
    (∀ (k : Nat) (xs : List String), (chunks (k + 1) xs).flatten = xs) ∧
    (∀ (k : Nat) (xs c : List String), c ∈ chunks (k + 1) xs → c.length ≤ k + 1) ∧
    artistCallSizes (fetch_and_save_artist_data spBulk ids120 emptyCache).1 = [50, 50, 20] ∧
    (fetch_and_save_artist_data spBulk ids120 emptyCache).1.length = 3 ∧
    featureCallSizes (fetch_song_features spBulk ids250 emptyCache).1 = [100, 100, 50] ∧
    (fetch_song_features spBulk ids250 emptyCache).1.length = 3 := by
  exact ⟨fun k xs => chunks_flatten k xs, fun k xs c h => chunks_length_le k xs c h,
         by decide, by decide, by decide, by decide⟩

/-- Witness for claim C7: the general partition facts evaluated on the
120-id batch list, next to the concrete call sizes. -/
theorem bulk_batch_partition_witness :
    (chunks 50 ids120).flatten = ids120 ∧
    ((chunks 50 ids120).getD 0 []).length ≤ 50 ∧
    artistCallSizes (fetch_and_save_artist_data spBulk ids120 emptyCache).1 = [50, 50, 20] :=
  ⟨bulk_batch_partition.1 49 ids120,
   bulk_batch_partition.2.1 49 ids120 ((chunks 50 ids120).getD 0 []) (by decide),
   bulk_batch_partition.2.2.1⟩

/-- Claim C8: a null track entry in a track list is skipped by the
artist-id collection loop (shared by `fetch_and_save_playlist_tracks`
and `refresh`) without being dereferenced: removing the null entry gives
the same collected artist ids, so the entry contributes nothing and no
error is raised. -/
theorem null_track_skipped (existing acc : List String) (xs ys : List SpPlaylistItem) :
    collectArtistsAcc existing (xs ++ { track := none } :: ys) acc =
      collectArtistsAcc existing (xs ++ ys) acc := by
  simp only [collectArtistsAcc, List.foldl_append, List.foldl_cons]

/-- Claim C3 names a code bug: the cached playlist files hold the raw
track-item lists that `pull` and `refresh` write (the documented cache
layout), so the menu print of `tag` string-indexes a list and raises
TypeError right after playback starts and before any input is read; the
add path the claim describes is the documented intent (the dispatch code
for it is present) but unreachable. Evaluated at the failing input (one
cached playlist, one liked song, a device, menu choice 1): the run
aborts after the playback start, and no add-items call and no
playback-stop call is ever issued. -/
theorem tag_add_path_unreachable :
    tag ["d"] stC2 likedTag picksId 3 ["1"] =
      ([Event.api ApiCall.devices,
        Event.api (ApiCall.startPlayback "d" "spotify:track:tA")],
       .error "TypeError: list indices must be integers or slices, not str") ∧
    (tag ["d"] stC2 likedTag picksId 3 ["1"]).1.countP isAddEv = 0 ∧
    (tag ["d"] stC2 likedTag picksId 3 ["1"]).1.countP isPauseEv = 0 := by
  refine ⟨by decide, by decide, by decide⟩

/-- Claim C9 names a code bug: the quit path is the documented intent
(its dispatch code would stop playback once and break) but is
unreachable, because the menu print string-indexes the cached track-item
lists and raises TypeError before any input is read. Evaluated at the
failing input (one cached playlist, one liked song, a device, quit
pending): the run aborts after the playback start with zero
playback-stop calls and zero playlist-mutation calls. -/
theorem tag_quit_path_unreachable :
    tag ["d"] stC2 likedTag picksId 3 ["q"] =
      ([Event.api ApiCall.devices,
        Event.api (ApiCall.startPlayback "d" "spotify:track:tA")],
       .error "TypeError: list indices must be integers or slices, not str") ∧
    (tag ["d"] stC2 likedTag picksId 3 ["q"]).1.countP isPauseEv = 0 ∧
    (tag ["d"] stC2 likedTag picksId 3 ["q"]).1.countP isAddEv = 0 := by
  refine ⟨by decide, by decide, by decide⟩

/-- Claim C4 is false on the code: with pending inputs invalid then
quit, the claim predicts the loop re-prompts through the invalid line
with the same song playing and stops playback only when the recognized
quit arrives. Instead the run aborts with TypeError while rendering the
menu, before any input is read: the outcome is an error, exactly one
playback start and zero playback-stop calls are observed. -/
theorem tag_invalid_input_crash_counterexample :
    (tag ["d"] stC2 likedTag picksId 3 ["x", "q"]).2 =
      .error "TypeError: list indices must be integers or slices, not str" ∧
    (tag ["d"] stC2 likedTag picksId 3 ["x", "q"]).1.countP isStartEv = 1 ∧
    (tag ["d"] stC2 likedTag picksId 3 ["x", "q"]).1.countP isPauseEv = 0 ∧
    (tag ["d"] stC2 likedTag picksId 3 ["x", "q"]).1.countP isAddEv = 0 := by
  refine ⟨by decide, by decide, by decide, by decide⟩

/-- Claim C4 amended: on any cache the program itself produces (playlist
files holding raw track-item lists), the tagging loop never reaches the
input dispatch: after the devices lookup and the playback-start call for
the selected song, rendering the playlist menu raises TypeError and the
run aborts, whatever the pending input lines are — so no re-prompt
happens, no playback-stop call and no playlist-mutation call is issued. -/
theorem tag_menu_crash_before_input (d : String) (more : List String)
    (st : CacheState) (liked : List SpPlaylistItem) (picks : Nat → Nat)
    (fuel : Nat) (inputs : List String) (item : SpPlaylistItem) (t : SpTrack)
    (hdir : "spotify/playlists" ∈ st.dirs)
    (hpl : st.playlistFiles ≠ [])
    (hget : liked[picks 0 % liked.length]? = some item)
    (htr : item.track = some t)
    (hart : t.artists.isEmpty = false) :
    tag (d :: more) st liked picks (fuel + 1) inputs =
      ([Event.api ApiCall.devices,
        Event.api (ApiCall.startPlayback d ("spotify:track:" ++ t.id))],
       .error "TypeError: list indices must be integers or slices, not str") := by
  have hne : liked ≠ [] := by
    intro h
    subst h
    simp at hget
  have hlE : liked.isEmpty = false := by
    cases liked with
    | nil => exact absurd rfl hne
    | cons a l => rfl
  cases hfiles : st.playlistFiles with
  | nil => exact absurd hfiles hpl
  | cons f fs =>
      simp [tag, load_local_playlists, hdir, hfiles, hlE, tagLoop, hget, htr, hart,
        menuLabels, pyListGetStr]

/-- Witness for the amended claim C4: a concrete run with pending inputs
skip, add, quit still aborts at the menu with zero stop calls. -/
theorem tag_menu_crash_before_input_witness :
    tag ["d"] stC2 likedTag picksId 5 ["s", "1", "q"] =
      ([Event.api ApiCall.devices,
        Event.api (ApiCall.startPlayback "d" "spotify:track:tA")],
       .error "TypeError: list indices must be integers or slices, not str") :=
  tag_menu_crash_before_input "d" [] stC2 likedTag picksId 4 ["s", "1", "q"]
    songA trackA (by decide) (by decide) (by decide) (by decide) (by decide)

/-- The trace of the skipped-playlist pull scenario. -/
def trC2 : List Event :=
  [Event.api ApiCall.currentUser,
   Event.api (ApiCall.currentUserPlaylists 50 0),
   Event.api (ApiCall.currentUserPlaylists 50 1),
   Event.confirm "MyList" false,
   Event.api (ApiCall.audioFeatures ["s1"])]

/-- The final cache of the skipped-playlist pull scenario. -/
def stC2out : CacheState :=
  { playlistFiles := [("P", [itemS1])],
    artistFile := some [],
    featureFiles := [("s1", { id := "s1", payload := "f" })],
    dirs := ["spotify/playlists", "spotify/artists", "spotify/features"] }

/-- Claim C2 is false on the code: a playlist declined at the prompt is
indeed neither fetched nor written, but `pull` still loads its cached
file and the cached track ids flow into the audio-feature step. In the
scenario the single playlist P is declined, no tracks call is issued, yet
the run ends with a feature call for the cached song id s1. -/
theorem skipped_playlist_contributes_song_ids :
    pull spC2 5 noAnswers stC2 = .ok (trC2, stC2out) ∧
    Event.confirm "MyList" false ∈ trC2 ∧
    trC2.countP isTracksCallEv = 0 ∧
    Event.api (ApiCall.audioFeatures ["s1"]) ∈ trC2 := by
  refine ⟨by decide, by decide, by decide, by decide⟩

/-- Claim C2 amended: a declined playlist is skipped by
`fetch_and_save_playlist_tracks` itself (no remote call, cache unchanged,
no artist ids), but `pull` still reads the cached file of every listed
playlist: when the file exists its track ids contribute to the
audio-feature step, and when it does not exist the run fails with
FileNotFoundError. -/
theorem skip_no_fetch_but_cached_ids_contribute :
    (∀ (sp : Remote) (fuel : Nat) (p : SpPlaylist) (existing : List String)
        (st : CacheState),
        fetch_and_save_playlist_tracks sp fuel p existing false st =
          some ([Event.confirm p.name false], st, [])) ∧
    pull spC2 5 noAnswers stC2 = .ok (trC2, stC2out) ∧
    trC2.countP isTracksCallEv = 0 ∧
    Event.api (ApiCall.audioFeatures ["s1"]) ∈ trC2 ∧
    stC2out.playlistFiles = stC2.playlistFiles ∧
    pull spC2 5 noAnswers { stC2 with playlistFiles := [] } =
      .error "FileNotFoundError: spotify/playlists/P.json" := by
  refine ⟨fun sp fuel p existing st => rfl, by decide, by decide, by decide,
    by decide, by decide⟩

/-- Claim C10: when the playlist cache directory does not exist,
`refresh` issues no remote call at all and only creates the artists and
features directories and rewrites the aggregate artist file with its
previous (possibly empty) contents. -/
theorem refresh_missing_dir_no_calls (sp : Remote) (fuel : Nat) (st : CacheState)
    (h : "spotify/playlists" ∉ st.dirs) :
    refresh sp fuel st =
      some ([],
        { playlistFiles := st.playlistFiles,
          artistFile := some (st.artistFile.getD []),
          featureFiles := st.featureFiles,
          dirs := insertSet (insertSet st.dirs "spotify/artists") "spotify/features" }) := by
  simp [refresh, refreshLoop, fetch_and_save_artist_data, fetch_song_features,
    saveFeatures, chunks, chunksAux, h]

/-- Witness for claim C10: on the empty cache, refresh returns an empty
trace and only the two directories plus an empty aggregate file. -/
theorem refresh_missing_dir_no_calls_witness :
    refresh spBulk 3 emptyCache =
      some ([],
        { playlistFiles := [], artistFile := some [], featureFiles := [],
          dirs := ["spotify/artists", "spotify/features"] }) :=
  refresh_missing_dir_no_calls spBulk 3 emptyCache (by decide)

theorem mem_insertSet_self (l : List String) (x : String) : x ∈ insertSet l x := by
  by_cases h : x ∈ l
  · simp [insertSet, h]
  · simp [insertSet, h]

theorem insertSet_of_mem (l : List String) (x : String) (h : x ∈ l) :
    insertSet l x = l := by
  simp [insertSet, h]

theorem artists_flatten_ids (sp : Remote)
    (hsp : ∀ ids, (sp.artists ids).map (fun a => a.id) = ids) (xs : List String) :
    (((chunks 50 xs).map (fun b => sp.artists b)).flatten.map (fun a => a.id)) = xs := by
  rw [List.map_flatten, List.map_map]
  have hcomp : ((fun l => List.map (fun (a : SpArtist) => a.id) l) ∘ fun b => sp.artists b) =
      fun (b : List String) => b := funext (fun b => hsp b)
  rw [hcomp]
  have h50 : (chunks 50 xs).map (fun b => b) = chunks 50 xs := List.map_id' _
  rw [h50]
  exact chunks_flatten 49 xs

theorem artist_merge_noop (sp : Remote) (u : List String) (st1 : CacheState)
    (A : List SpArtist)
    (hA : st1.artistFile = some A)
    (hd : "spotify/artists" ∈ st1.dirs)
    (hfilter : u.filter (fun (i : String) => decide (i ∉ A.map (fun a => a.id))) = []) :
    fetch_and_save_artist_data sp u st1 = ([], st1) := by
  simp only [fetch_and_save_artist_data, hA, Option.getD_some, hfilter]
  rw [insertSet_of_mem _ _ hd]
  have hch : chunks 50 ([] : List String) = [] := rfl
  rw [hch]
  simp only [List.map_nil, List.flatten_nil, List.append_nil]
  rw [← hA]

/-- Claim C5: after the artist-merge step the aggregate artist collection
has no duplicate ids and equals the previous collection with exactly the
not-yet-present ids appended; running the merge a second time with the
same batch issues no call and leaves the state unchanged. Hypotheses: the
remote answers a bulk artist lookup with records carrying the requested
ids, the stored aggregate has no duplicate ids, and the incoming batch
(a Python set) has no duplicates. -/
theorem artist_merge_dedup_idempotent (sp : Remote) (uniqueArtists : List String)
    (st : CacheState)
    (hsp : ∀ ids, (sp.artists ids).map (fun a => a.id) = ids)
    (hfile : ((st.artistFile.getD []).map (fun a => a.id)).Nodup)
    (hu : uniqueArtists.Nodup) :
    ((((fetch_and_save_artist_data sp uniqueArtists st).2.artistFile.getD []).map
        (fun a => a.id)).Nodup) ∧
    (((fetch_and_save_artist_data sp uniqueArtists st).2.artistFile.getD []).map
        (fun a => a.id) =
      (st.artistFile.getD []).map (fun a => a.id) ++
        uniqueArtists.filter
          (fun (i : String) =>
            decide (i ∉ (st.artistFile.getD []).map (fun a => a.id)))) ∧
    fetch_and_save_artist_data sp uniqueArtists
        (fetch_and_save_artist_data sp uniqueArtists st).2 =
      ([], (fetch_and_save_artist_data sp uniqueArtists st).2) := by
  have hN : ((fetch_and_save_artist_data sp uniqueArtists st).2.artistFile.getD []).map
      (fun a => a.id) =
      (st.artistFile.getD []).map (fun a => a.id) ++
        uniqueArtists.filter
          (fun (i : String) =>
            decide (i ∉ (st.artistFile.getD []).map (fun a => a.id))) := by
    simp only [fetch_and_save_artist_data, Option.getD_some, List.map_append]
    rw [artists_flatten_ids sp hsp]
  have hdisj : ((st.artistFile.getD []).map (fun a => a.id)).Disjoint
      (uniqueArtists.filter
        (fun (i : String) =>
          decide (i ∉ (st.artistFile.getD []).map (fun a => a.id)))) := by
    intro a haE haN
    exact (of_decide_eq_true (List.mem_filter.mp haN).2) haE
  refine ⟨?_, hN, ?_⟩
  · rw [hN]
    exact hfile.append (hu.filter _) hdisj
  · have hfilter2 : uniqueArtists.filter
        (fun (i : String) =>
          decide (i ∉
            (((fetch_and_save_artist_data sp uniqueArtists st).2.artistFile.getD []).map
              (fun a => a.id)))) = [] := by
      simp only [hN]
      refine List.filter_eq_nil_iff.mpr ?_
      intro a ha
      simp only [decide_eq_true_eq, not_not]
      by_cases haE : a ∈ (st.artistFile.getD []).map (fun b => b.id)
      · exact List.mem_append_left _ haE
      · refine List.mem_append_right _ (List.mem_filter.mpr ⟨ha, ?_⟩)
        exact decide_eq_true haE
    refine artist_merge_noop sp uniqueArtists _ _ rfl ?_ ?_
    · exact mem_insertSet_self _ _
    · exact hfilter2

/-- Witness for claim C5: merging the single new id a into the empty
cache yields a duplicate-free aggregate and a second merge is a no-op
with no remote call. -/
theorem artist_merge_dedup_idempotent_witness :
    ((((fetch_and_save_artist_data spBulk ["a"] emptyCache).2.artistFile.getD []).map
        (fun a => a.id)).Nodup) ∧
    fetch_and_save_artist_data spBulk ["a"]
        (fetch_and_save_artist_data spBulk ["a"] emptyCache).2 =
      ([], (fetch_and_save_artist_data spBulk ["a"] emptyCache).2) :=
  ⟨(artist_merge_dedup_idempotent spBulk ["a"] emptyCache
      (by intro ids; simp only [spBulk, List.map_map]; exact (List.map_congr_left (fun a ha => rfl)).trans (List.map_id' ids)) (by simp [emptyCache]) (by simp)).1,
   (artist_merge_dedup_idempotent spBulk ["a"] emptyCache
      (by intro ids; simp only [spBulk, List.map_map]; exact (List.map_congr_left (fun a ha => rfl)).trans (List.map_id' ids)) (by simp [emptyCache]) (by simp)).2.2⟩

theorem lookupAssoc_setAssoc_self {α : Type} (m : List (String × α)) (k : String)
    (v : α) : lookupAssoc (setAssoc m k v) k = some v := by
  induction m with
  | nil => simp [setAssoc, lookupAssoc]
  | cons p rest ih =>
      obtain ⟨a, b⟩ := p
      by_cases h : a = k
      · subst h
        simp [setAssoc, lookupAssoc]
      · simp [setAssoc, lookupAssoc, h, ih]

theorem lookupAssoc_setAssoc_ne {α : Type} (m : List (String × α)) (k q : String)
    (v : α) (h : q ≠ k) :
    lookupAssoc (setAssoc m k v) q = lookupAssoc m q := by
  induction m with
  | nil => simp [setAssoc, lookupAssoc, Ne.symm h]
  | cons p rest ih =>
      obtain ⟨a, b⟩ := p
      by_cases ha : a = k
      · subst ha
        simp [setAssoc, lookupAssoc, Ne.symm h]
      · by_cases haq : a = q <;> simp [setAssoc, lookupAssoc, ha, haq, ih, h]

theorem refreshLoop_lookup_notmem (sp : Remote) (fuel : Nat) (ex : List String) :
    ∀ (pids : List String) (st : CacheState) (allU allS : List String)
      (tr : List Event) (st2 : CacheState) (u2 s2 : List String) (q : String),
      q ∉ pids →
      refreshLoop sp fuel ex pids st allU allS = some (tr, st2, u2, s2) →
      lookupAssoc st2.playlistFiles q = lookupAssoc st.playlistFiles q := by
  intro pids
  induction pids with
  | nil =>
      intro st allU allS tr st2 u2 s2 q hq hr
      simp only [refreshLoop, Option.some.injEq, Prod.mk.injEq] at hr
      obtain ⟨-, h2, -, -⟩ := hr
      rw [← h2]
  | cons pid rest ih =>
      intro st allU allS tr st2 u2 s2 q hq hr
      simp only [refreshLoop] at hr
      split at hr
      · simp at hr
      · rename_i offs tracks heq
        split at hr
        · simp at hr
        · rename_i evs2 st3 u3 s3 hrec
          simp only [Option.some.injEq, Prod.mk.injEq] at hr
          obtain ⟨-, hst2, -, -⟩ := hr
          rw [← hst2]
          have hq1 : q ∉ rest := fun hm => hq (List.mem_cons_of_mem _ hm)
          have hq2 : q ≠ pid := fun hm => hq (hm ▸ List.mem_cons_self _ _)
          rw [ih _ _ _ _ _ _ _ q hq1 hrec]
          exact lookupAssoc_setAssoc_ne _ _ _ _ hq2

theorem refreshLoop_overwrites (sp : Remote) (fuel : Nat) (ex : List String) :
    ∀ (pids : List String) (st : CacheState) (allU allS : List String)
      (tr : List Event) (st2 : CacheState) (u2 s2 : List String),
      pids.Nodup →
      refreshLoop sp fuel ex pids st allU allS = some (tr, st2, u2, s2) →
      ∀ pid ∈ pids, ∃ offs ts,
        paginate (sp.playlistTracks pid) 100 fuel 0 = some (offs, ts) ∧
        lookupAssoc st2.playlistFiles pid = some ts := by
  intro pids
  induction pids with
  | nil =>
      intro st allU allS tr st2 u2 s2 hnd hr pid hmem
      simp at hmem
  | cons pid0 rest ih =>
      intro st allU allS tr st2 u2 s2 hnd hr pid hmem
      simp only [refreshLoop] at hr
      split at hr
      · simp at hr
      · rename_i offs tracks hpag
        split at hr
        · simp at hr
        · rename_i evs2 st3 u3 s3 hrec
          simp only [Option.some.injEq, Prod.mk.injEq] at hr
          obtain ⟨-, hst2, -, -⟩ := hr
          rcases List.mem_cons.mp hmem with hpid | hpid
          · subst hpid
            refine ⟨offs, tracks, hpag, ?_⟩
            rw [← hst2]
            have hnotin : pid ∉ rest := (List.nodup_cons.mp hnd).1
            rw [refreshLoop_lookup_notmem sp fuel ex rest _ _ _ _ _ _ _ pid hnotin hrec]
            exact lookupAssoc_setAssoc_self _ _ _
          · have := ih _ _ _ _ _ _ _ (List.nodup_cons.mp hnd).2 hrec pid hpid
            rw [← hst2]
            exact this

theorem refreshLoop_trace (sp : Remote) (fuel : Nat) (ex : List String) :
    ∀ (pids : List String) (st : CacheState) (allU allS : List String)
      (tr : List Event) (st2 : CacheState) (u2 s2 : List String),
      refreshLoop sp fuel ex pids st allU allS = some (tr, st2, u2, s2) →
      ∀ e ∈ tr, ∃ pid ∈ pids, ∃ o,
        e = Event.api (ApiCall.playlistTracks pid 100 o) := by
  intro pids
  induction pids with
  | nil =>
      intro st allU allS tr st2 u2 s2 hr e he
      simp only [refreshLoop, Option.some.injEq, Prod.mk.injEq] at hr
      obtain ⟨h1, -, -, -⟩ := hr
      rw [← h1] at he
      simp at he
  | cons pid0 rest ih =>
      intro st allU allS tr st2 u2 s2 hr e he
      simp only [refreshLoop] at hr
      split at hr
      · simp at hr
      · rename_i offs tracks hpag
        split at hr
        · simp at hr
        · rename_i evs2 st3 u3 s3 hrec
          simp only [Option.some.injEq, Prod.mk.injEq] at hr
          obtain ⟨h1, -, -, -⟩ := hr
          rw [← h1] at he
          rcases List.mem_append.mp he with hl | hl
          · obtain ⟨o, -, rfl⟩ := List.mem_map.mp hl
            exact ⟨pid0, List.mem_cons_self _ _, o, rfl⟩
          · obtain ⟨pid, hp, o, he2⟩ := ih _ _ _ _ _ _ _ hrec e hl
            exact ⟨pid, List.mem_cons_of_mem _ hp, o, he2⟩

theorem saveFeatures_playlistFiles (fs : List (Option SpFeature)) :
    ∀ (st : CacheState), (saveFeatures fs st).playlistFiles = st.playlistFiles := by
  induction fs with
  | nil => intro st; rfl
  | cons f rest ih =>
      intro st
      cases f with
      | none => exact ih st
      | some feat => exact ih _

theorem fetch_song_features_playlistFiles (sp : Remote) (ids : List String)
    (st : CacheState) :
    ((fetch_song_features sp ids st).2).playlistFiles = st.playlistFiles := by
  simp only [fetch_song_features]
  rw [saveFeatures_playlistFiles]

/-- Claim C6: `refresh` enumerates the playlists to re-fetch strictly
from the filenames of the local playlist cache directory: every event of
its trace is a tracks fetch for a cached playlist id, a bulk artist
fetch or a bulk feature fetch (so in particular no playlist-listing call
and no confirmation prompt occur), and the final cache maps each
enumerated playlist id to the freshly fetched track list. -/
theorem refresh_uses_cache_filenames_only (sp : Remote) (fuel : Nat)
    (st : CacheState) (tr : List Event) (st2 : CacheState)
    (hnd : (st.playlistFiles.map Prod.fst).Nodup)
    (hr : refresh sp fuel st = some (tr, st2)) :
    (∀ e ∈ tr, refreshEventOK (st.playlistFiles.map Prod.fst) e) ∧
    (∀ pid ∈ (if "spotify/playlists" ∈ st.dirs then st.playlistFiles.map Prod.fst
              else []),
       ∃ offs ts, paginate (sp.playlistTracks pid) 100 fuel 0 = some (offs, ts) ∧
         lookupAssoc st2.playlistFiles pid = some ts) := by
  simp only [refresh] at hr
  cases hloop : refreshLoop sp fuel ((st.artistFile.getD []).map (fun a => a.id))
      (if "spotify/playlists" ∈ st.dirs then st.playlistFiles.map Prod.fst else [])
      st [] [] with
  | none =>
      rw [hloop] at hr
      simp at hr
  | some r4 =>
      obtain ⟨evs1, st1, allU, allS⟩ := r4
      rw [hloop] at hr
      simp only [Option.some.injEq, Prod.mk.injEq] at hr
      obtain ⟨htr, hst2⟩ := hr
      have hsub : ∀ x ∈ (if "spotify/playlists" ∈ st.dirs
          then st.playlistFiles.map Prod.fst else []),
          x ∈ st.playlistFiles.map Prod.fst := by
        intro x hx
        by_cases hdir : "spotify/playlists" ∈ st.dirs
        · rw [if_pos hdir] at hx; exact hx
        · rw [if_neg hdir] at hx; simp at hx
      have hndP : (if "spotify/playlists" ∈ st.dirs
          then st.playlistFiles.map Prod.fst else []).Nodup := by
        by_cases hdir : "spotify/playlists" ∈ st.dirs
        · rw [if_pos hdir]; exact hnd
        · rw [if_neg hdir]; exact List.nodup_nil
      constructor
      · intro e he
        rw [← htr] at he
        rcases List.mem_append.mp he with h1 | h1
        · rcases List.mem_append.mp h1 with h2 | h2
          · obtain ⟨pid, hp, o, rfl⟩ :=
              refreshLoop_trace sp fuel _ _ _ _ _ _ _ _ _ hloop e h2
            exact hsub pid hp
          · simp only [fetch_and_save_artist_data] at h2
            obtain ⟨b, -, rfl⟩ := List.mem_map.mp h2
            trivial
        · simp only [fetch_song_features] at h1
          obtain ⟨b, -, rfl⟩ := List.mem_map.mp h1
          trivial
      · intro pid hp
        obtain ⟨offs, ts, hpag, hlook⟩ :=
          refreshLoop_overwrites sp fuel _ _ _ _ _ _ _ _ _ hndP hloop pid hp
        refine ⟨offs, ts, hpag, ?_⟩
        rw [← hst2, fetch_song_features_playlistFiles]
        exact hlook

/-- The trace of the concrete refresh scenario: two tracks calls for the
cached playlist p1, one artist call, one feature call. -/
def trC6 : List Event :=
  [Event.api (ApiCall.playlistTracks "p1" 100 0),
   Event.api (ApiCall.playlistTracks "p1" 100 1),
   Event.api (ApiCall.artists ["ar1"]),
   Event.api (ApiCall.audioFeatures ["t1"])]

/-- The final cache of the concrete refresh scenario: the stale track
list of p1 is overwritten by the freshly fetched one. -/
def stC6out : CacheState :=
  { playlistFiles := [("p1", [itemT1])],
    artistFile := some [{ id := "ar1", name := "n" }],
    featureFiles := [("t1", { id := "t1", payload := "f" })],
    dirs := ["spotify/playlists", "spotify/artists", "spotify/features"] }

/-- Witness for claim C6: in the concrete scenario refresh emits only
cache-driven events and overwrites the cached list of p1 with the fresh
fetch. -/
theorem refresh_uses_cache_filenames_only_witness :
    (∀ e ∈ trC6, refreshEventOK (stC6.playlistFiles.map Prod.fst) e) ∧
    (∀ pid ∈ (if "spotify/playlists" ∈ stC6.dirs then stC6.playlistFiles.map Prod.fst
              else []),
       ∃ offs ts, paginate (spC6.playlistTracks pid) 100 5 0 = some (offs, ts) ∧
         lookupAssoc stC6out.playlistFiles pid = some ts) :=
  refresh_uses_cache_filenames_only spC6 5 stC6 trC6 stC6out (by decide) (by decide)

end ClassAct
